import Mathlib

/-!
# Verification of the documind segmentation-and-indexing pipeline

A shallow embedding, in Lean 4, of the core of the `documind` repository:
the document chunker (`src/app/text_chunker.py`), metadata extraction
(`src/app/document_processor.py`), the ingestion pipeline
(`src/app/ingestion/pipeline.py`), the embedding generator
(`src/app/embeddings.py`), the vector-store client (`src/app/vector_store.py`),
the document loader (`src/app/document_loader.py`) and the word-count helper
(`src/app/utils.py`).

Python dictionaries whose keys are fixed by the code are modelled as Lean
structures with `Option` fields: a field holding `none` models an absent key,
and reading an absent key is a `KeyError`.  Exceptions are modelled with
`Except PyErr`.  External collaborators (the langchain text splitter's
`split_text`, the SHA-256 hex digest, the OpenAI embedding service) are pure
deterministic functions of their inputs and are passed as explicit function
arguments; network effects are made observable by returning the list of calls
issued.  Numeric embedding vectors are modelled as `List Int`, their values
being irrelevant to every property proved here.
-/

namespace Documind

/-- Python exceptions raised by the embedded code. -/
inductive PyErr where
  | attributeError (msg : String)
  | keyError (key : String)
  | valueError (msg : String)
  | typeError (msg : String)
  | runtimeError (msg : String)
  deriving Repr, DecidableEq

/-- `count_words` from `src/app/utils.py`: `len(text.split())` with an early
return of 0 on the empty string.  Python's `str.split()` with no argument
splits on runs of whitespace and drops empty pieces. -/
def count_words (text : String) : Nat :=
  if text = "" then 0
  else ((text.split Char.isWhitespace).filter (fun w => w ≠ "")).length

/-- A Python metadata dictionary as consumed by `DocumentChunker.chunk` and as
produced by `DocumentProcessor.extract_metadata`.  A `none` field models a key
that is absent from the dictionary. -/
structure PyMetadata where
  doc_id : Option String
  doc_name : Option String
  doc_type : Option String
  source : Option String
  doc_path : Option String
  word_count : Option Nat
  char_count : Option Nat
  sentence_count : Option Nat
  deriving Repr, DecidableEq

/-- The `merged_metadata` dictionary built for each chunk
(`src/app/text_chunker.py`, lines 87-97). -/
structure ChunkMeta where
  doc_name : String
  doc_type : String
  source : String
  doc_path : String
  word_count_at_source : Nat
  chunk_index : Nat
  chunk_size : Nat
  overlap : Nat
  total_chunks : Nat
  deriving Repr, DecidableEq

/-- One element of the list returned by `DocumentChunker.chunk`
(`src/app/text_chunker.py`, lines 99-106). -/
structure ChunkRecord where
  chunk_id : String
  doc_id : String
  content : String
  char_count : Nat
  word_count : Nat
  metadata : ChunkMeta
  deriving Repr, DecidableEq

/-- The state of a `DocumentChunker` instance.  `__init__` stores
`chunk_size`, `overlap` and `separators` (the splitter is a pure function of
those three, so it is not part of the state).  `doc_id_attr` models the Python
instance attribute `doc_id`: `__init__` never assigns it, so after
construction it is `none`, and reading it raises `AttributeError`.  (The
module docstring records that the reworked design is stateless; the attribute
survives only as the stale read on line 101.) -/
structure DocumentChunker where
  chunk_size : Nat
  overlap : Nat
  separators : List String
  doc_id_attr : Option String
  deriving Repr, DecidableEq

/-- The default separator cascade (`src/app/text_chunker.py`, lines 32-43). -/
def defaultSeparators : List String :=
  ["\n\n", "\n", ". ", "! ", "? ", "; ", ", ", " ", ""]

/-- `DocumentChunker.__init__`.  The body itself performs no validation; the
`ValueError` for `overlap > chunk_size` is raised by the constructor of the
underlying langchain `RecursiveCharacterTextSplitter` (an external dependency
instantiated on line 47), which rejects a chunk overlap strictly larger than
the chunk size.  Note the rejection is strict: `overlap == chunk_size` is
accepted. -/
def DocumentChunker.init (chunk_size overlap : Nat)
    (separators : Option (List String)) : Except PyErr DocumentChunker :=
  let seps := match separators with
    | none => defaultSeparators
    | some s => s
  if chunk_size < overlap then
    .error (.valueError "Got a larger chunk overlap than chunk size, should be smaller.")
  else
    .ok ⟨chunk_size, overlap, seps, none⟩

/-- `DocumentChunker._generate_chunk_id` (`src/app/text_chunker.py`,
lines 56-61): the document id, the chunk position and the first 8 characters
of the content's SHA-256 hex digest, joined with fixed separators.  The hex
digest (`hashlib`, external) is the function argument `hexdigest`. -/
def generate_chunk_id (hexdigest : String → String)
    (doc_id : String) (chunk_idx : Nat) (content : String) : String :=
  let content_hash := (hexdigest content).take 8
  doc_id ++ "_chunk_" ++ toString chunk_idx ++ "_" ++ content_hash

/-- The `merged_metadata` dictionary literal (`src/app/text_chunker.py`,
lines 87-97).  Each key of the `metadata` argument is read with `[]`, so the
first absent key raises `KeyError`, in the source's evaluation order. -/
def mergedMetadata (c : DocumentChunker) (metadata : PyMetadata)
    (idx total : Nat) : Except PyErr ChunkMeta :=
  match metadata.doc_name with
  | none => .error (.keyError "doc_name")
  | some dn =>
  match metadata.doc_type with
  | none => .error (.keyError "doc_type")
  | some dt =>
  match metadata.source with
  | none => .error (.keyError "source")
  | some src =>
  match metadata.doc_path with
  | none => .error (.keyError "doc_path")
  | some dp =>
  match metadata.word_count with
  | none => .error (.keyError "word_count")
  | some wc =>
    .ok ⟨dn, dt, src, dp, wc, idx, c.chunk_size, c.overlap, total⟩

/-- The body of the `for idx, chunk_content in enumerate(chunks)` loop
(`src/app/text_chunker.py`, lines 84-106).  For each piece: the chunk id is
computed from the local `doc_id` (line 85), then `merged_metadata` is built
(first missing metadata key raises), then the record dictionary is built —
whose `doc_id` entry reads the instance attribute `self.doc_id` (line 101),
raising `AttributeError` when the attribute was never assigned. -/
def chunkLoop (c : DocumentChunker) (hexdigest : String → String)
    (doc_id : String) (metadata : PyMetadata) (total : Nat) :
    Nat → List String → Except PyErr (List ChunkRecord)
  | _, [] => .ok []
  | idx, chunk_content :: rest => do
    let chunk_id := generate_chunk_id hexdigest doc_id idx chunk_content
    let md ← mergedMetadata c metadata idx total
    match c.doc_id_attr with
    | none => .error (.attributeError "DocumentChunker object has no attribute doc_id")
    | some self_doc_id =>
      let record : ChunkRecord :=
        ⟨chunk_id, self_doc_id, chunk_content, chunk_content.length,
         count_words chunk_content, md⟩
      let restRecords ← chunkLoop c hexdigest doc_id metadata total (idx + 1) rest
      .ok (record :: restRecords)

/-- `DocumentChunker.chunk` (`src/app/text_chunker.py`, lines 63-108).
`split_text` stands for the langchain splitter's `split_text`, a pure
function of the text for a fixed configuration.  Empty text returns the empty
list; otherwise the local `doc_id` is taken from the metadata (defaulting to
"unknown"), the text is split, and the loop builds the chunk records. -/
def DocumentChunker.chunk (c : DocumentChunker)
    (split_text : String → List String) (hexdigest : String → String)
    (text : String) (metadata : PyMetadata) :
    Except PyErr (List ChunkRecord) :=
  if text = "" then .ok []
  else
    let doc_id := match metadata.doc_id with
      | none => "unknown"
      | some d => d
    let chunks := split_text text
    chunkLoop c hexdigest doc_id metadata chunks.length 0 chunks

/-- The number of maximal runs of sentence-ending punctuation, modelling
`re.findall` applied to one-or-more repetitions of `.`, `!`, `?`
(`src/app/document_processor.py`, line 81): each maximal run of those
characters is one match. -/
def countSentenceRuns (text : String) : Nat :=
  (text.toList.foldl
    (fun acc ch =>
      if ch = '.' ∨ ch = '!' ∨ ch = '?' then
        if acc.2 then acc else (acc.1 + 1, true)
      else (acc.1, false))
    ((0, false) : Nat × Bool)).1

/-- `DocumentProcessor.extract_metadata` (`src/app/document_processor.py`,
lines 65-91).  The returned dictionary carries exactly the keys
`doc_id`, `doc_name`, `doc_path`, `word_count`, `char_count` and
`sentence_count`; in particular it has no `doc_type` and no `source` key, so
those fields are `none`. -/
def extract_metadata (text : String) (doc_id : String)
    (doc_name : Option String) (doc_path : Option String) : PyMetadata :=
  if text = "" then
    ⟨some doc_id, doc_name, none, none, doc_path, some 0, some 0, some 0⟩
  else
    let word_count := ((text.split Char.isWhitespace).filter (fun w => w ≠ "")).length
    let char_count :=
      (text.toList.filter (fun ch => ch ≠ ' ' ∧ ch ≠ '\n' ∧ ch ≠ '\t')).length
    let runs := countSentenceRuns text
    let sentence_count := if runs = 0 then 1 else runs
    ⟨some doc_id, doc_name, none, none, doc_path, some word_count,
     some char_count, some sentence_count⟩

/-- The metadata dictionary returned by `DocumentLoader.get_metadata`
(`src/app/document_loader.py`, lines 112-118). -/
structure LoaderMetadata where
  doc_type : String
  source : String
  file_path : String
  file_name : String
  deriving Repr, DecidableEq

/-- `IngestionPipeline.ingest_document` (`src/app/ingestion/pipeline.py`,
lines 12-39).  After loading the raw text (the loader is the `load` argument)
it evaluates `DocumentProcessor(raw_text, doc_type=..., source=...)` —
but `DocumentProcessor.__init__` (`src/app/document_processor.py`, line 6)
accepts only `text`, so the call raises `TypeError` before any further
processing. -/
def ingest_document (load : String → Except PyErr String)
    (file_path : String) : Except PyErr (String × PyMetadata) := do
  let _raw_text ← load file_path
  .error (.typeError "DocumentProcessor.init got an unexpected keyword argument doc_type")

/-! ## Document loader: doc-type classification -/

/-- The closed document-type enumeration (`DocType` in
`src/app/document_loader.py` line 7 and `src/app/vector_store.py` line 14). -/
def DocTypeEnum : List String := ["documentation", "rfc", "research", "manual"]

/-- `DocumentLoader.FOLDER_TYPE_MAPPING` (`src/app/document_loader.py`,
lines 11-22), as an ordered association list. -/
def FOLDER_TYPE_MAPPING : List (String × String) :=
  [("documentations", "documentation"),
   ("documentation", "documentation"),
   ("rfc", "rfc"),
   ("rfcs", "rfc"),
   ("research_papers", "research"),
   ("research", "research"),
   ("papers", "research"),
   ("software_manuals", "manual"),
   ("manuals", "manual"),
   ("manual", "manual")]

/-- Python's `str.lower()`: lowercase character by character. -/
def pyLower (s : String) : String := ⟨s.toList.map Char.toLower⟩

/-- Dictionary lookup in `FOLDER_TYPE_MAPPING`. -/
def lookupMapping (part : String) : Option String :=
  FOLDER_TYPE_MAPPING.lookup part

/-- `DocumentLoader._extract_doc_type` (`src/app/document_loader.py`,
lines 29-36): lowercase every path component, return the mapping of the first
component found in `FOLDER_TYPE_MAPPING`, and default to "documentation"
when none matches.  A file path is modelled by its list of components
(`pathlib.Path.parts`). -/
def extract_doc_type (path_parts : List String) : String :=
  match (path_parts.map pyLower).findSome? lookupMapping with
  | some t => t
  | none => "documentation"

/-- `pathlib.PurePath.stem`: the final component without its suffix.  The
suffix is the segment from the last dot, provided that dot is neither the
first nor the last character of the name. -/
def pathStem (name : String) : String :=
  let chars := name.toList
  match (List.range chars.length).filter (fun i => chars.get? i = some '.') with
  | [] => name
  | l =>
    let i := l.getLast!
    if 0 < i ∧ i < chars.length - 1 then ⟨chars.take i⟩ else name

/-- `DocumentLoader._extract_source` (`src/app/document_loader.py`,
lines 38-57), minus the `rfc` regex branch, which is modelled by the
`rfc_regex` argument: it returns `some s` exactly when
`re.search` of an rfc number in the lowercased file name succeeds, in which
case the source is that match.  Otherwise: if some component maps into
`FOLDER_TYPE_MAPPING` at index `i` and `i + 1 < len(parts) - 1`, the source
is the lowercased component at `i + 1`; else the lowercased stem of the file
name. -/
def extract_source (rfc_regex : String → Option String)
    (path_parts : List String) : String :=
  let doc_type := extract_doc_type path_parts
  let name := match path_parts.getLast? with
    | some n => n
    | none => ""
  match (if doc_type = "rfc" then rfc_regex (pyLower name) else none) with
  | some s => s
  | none =>
    let idx := (List.range path_parts.length).find?
      (fun i => (lookupMapping (pyLower ((path_parts.get? i).getD ""))).isSome)
    match idx with
    | some i =>
      if i + 1 < path_parts.length - 1 then
        pyLower ((path_parts.get? (i + 1)).getD "")
      else pyLower (pathStem name)
    | none => pyLower (pathStem name)

/-- `DocumentLoader.__init__` followed by `get_metadata`
(`src/app/document_loader.py`, lines 24-27 and 112-118): the constructor
computes `doc_type` and `source` from the path, and `get_metadata` returns
them together with the path and the final component.  `joinParts` renders
`str(self.file_path)`. -/
def get_metadata (rfc_regex : String → Option String)
    (path_parts : List String) : LoaderMetadata :=
  ⟨extract_doc_type path_parts,
   extract_source rfc_regex path_parts,
   String.intercalate "/" path_parts,
   (path_parts.getLast?).getD ""⟩

/-! ## Embedding generator -/

/-- One network request to the embedding service, carrying the list of input
texts of that request. -/
structure EmbedCall where
  inputs : List String
  deriving Repr, DecidableEq

/-- The client-side blank test of `EmbeddingGenerator.generate_embedding`
(`src/app/embeddings.py`, line 49): `not text or not text.strip()`, i.e. the
text is empty or consists of whitespace only. -/
def isBlankText (text : String) : Bool :=
  text.toList.all Char.isWhitespace

/-- `EmbeddingGenerator.generate_embedding` (`src/app/embeddings.py`,
lines 39-60).  The external service is the pure function `api`; the second
component of the result is the list of network calls issued.  A blank text is
rejected with `ValueError` before any call. -/
def generate_embedding (api : String → List Int) (text : String) :
    Except PyErr (List Int) × List EmbedCall :=
  if isBlankText text then
    (.error (.valueError "Text cannot be empty"), [])
  else
    (.ok (api text), [⟨[text]⟩])

/-- Structural worker for `splitIntoBatches`: the `fuel` argument only bounds
the recursion depth and is immaterial whenever it is at least the list
length. -/
def splitIntoBatchesAux (bs : Nat) : Nat → List String → List (List String)
  | 0, _ => []
  | _, [] => []
  | fuel + 1, x :: xs =>
      (x :: List.take (bs - 1) xs) ::
        splitIntoBatchesAux bs fuel (List.drop (bs - 1) xs)

/-- Successive slices of at most `bs` texts, modelling
`texts[i:i + batch_size]` for `i in range(0, len(texts), batch_size)` with
`bs > 0` (`src/app/embeddings.py`, lines 82-83). -/
def splitIntoBatches (bs : Nat) (texts : List String) : List (List String) :=
  splitIntoBatchesAux bs texts.length texts

/-- `EmbeddingGenerator.generate_embeddings_batch` (`src/app/embeddings.py`,
lines 62-97).  An empty input list returns `[]` with no call; Python's
`range` raises `ValueError` on a zero step; otherwise each batch is one
request to the service and the per-text embeddings are concatenated in order.
The body performs no validation of the individual texts. -/
def generate_embeddings_batch (api : String → List Int) (batch_size : Nat)
    (texts : List String) : Except PyErr (List (List Int)) × List EmbedCall :=
  if texts = [] then (.ok [], [])
  else if batch_size = 0 then
    (.error (.valueError "range arg 3 must not be zero"), [])
  else
    let bs := splitIntoBatches batch_size texts
    (.ok ((bs.map (fun b => b.map api)).flatten), bs.map (fun b => ⟨b⟩))

/-- A chunk dictionary as read by `EmbeddingGenerator.embed_chunks`: only the
`content` key is accessed, with `chunk.get("content", "")`. -/
structure EmbChunk where
  content : Option String
  deriving Repr, DecidableEq

/-- `EmbeddingGenerator.embed_chunks` (`src/app/embeddings.py`,
lines 99-119): collect each chunk's content (defaulting to the empty string),
call the batched path with the default batch size 100, and attach the
embeddings positionally. -/
def embed_chunks (api : String → List Int) (chunks : List EmbChunk) :
    Except PyErr (List (EmbChunk × List Int)) × List EmbedCall :=
  if chunks = [] then (.ok [], [])
  else
    let texts := chunks.map (fun c => c.content.getD "")
    match generate_embeddings_batch api 100 texts with
    | (.error e, calls) => (.error e, calls)
    | (.ok embeddings, calls) => (.ok (chunks.zip embeddings), calls)

/-! ## Vector store -/

/-- `MilvusVectorStore.DOC_TYPES` (`src/app/vector_store.py`, lines 19-24):
the keys of the doc-type dictionary. -/
def DOC_TYPES : List String := ["documentation", "rfc", "research", "manual"]

/-- A chunk dictionary as read by `MilvusVectorStore.insert_chunks`.
`has_metadata` models `"metadata" in chunk`; `md_doc_type` is
`chunk["metadata"].get("doc_type")` (`none` when the key is absent).  The
remaining metadata keys read by the row-building loop are modelled as always
present, as the chunker writes them unconditionally. -/
structure InsertChunk where
  chunk_id : String
  doc_id : String
  has_metadata : Bool
  md_doc_name : String
  md_doc_type : Option String
  md_source : String
  md_chunk_index : Nat
  content : String
  embedding : List Int
  deriving Repr, DecidableEq

/-- One persisted row of the collection (`src/app/vector_store.py`, schema of
lines 69-119). -/
structure Row where
  chunk_id : String
  doc_id : String
  doc_name : String
  doc_type : String
  source : String
  content : String
  chunk_index : Nat
  embedding : List Int
  deriving Repr, DecidableEq

/-- The collection's stored rows: the state written by
`collection.insert`. -/
structure MilvusState where
  rows : List Row
  deriving Repr, DecidableEq

/-- The row-building loop of `insert_chunks` (`src/app/vector_store.py`,
lines 185-193): every chunk of the batch is turned into a row; a chunk
without a `metadata` dictionary or without a `doc_type` key raises
`KeyError` (and nothing is written, as `collection.insert` runs only after
the loop). -/
def buildRows : List InsertChunk → Except PyErr (List Row)
  | [] => .ok []
  | c :: rest =>
    if c.has_metadata then
      match c.md_doc_type with
      | none => .error (.keyError "doc_type")
      | some dt => do
        let restRows ← buildRows rest
        .ok (⟨c.chunk_id, c.doc_id, c.md_doc_name, dt, c.md_source,
              c.content, c.md_chunk_index, c.embedding⟩ :: restRows)
    else .error (.keyError "metadata")

/-- `MilvusVectorStore.insert_chunks` (`src/app/vector_store.py`,
lines 158-213).  An empty batch returns `[]`.  The doc-type validation of
lines 171-174 inspects `chunks[0]` only: it raises `ValueError` when the
first chunk has a metadata dictionary whose `doc_type` is truthy and outside
`DOC_TYPES`.  Then the rows for the whole batch are built and appended to the
collection, and the chunk ids are returned. -/
def insert_chunks (st : MilvusState) (chunks : List InsertChunk) :
    Except PyErr (MilvusState × List String) :=
  match chunks with
  | [] => .ok (st, [])
  | c0 :: _ =>
    let firstInvalid :=
      c0.has_metadata &&
        (match c0.md_doc_type with
         | some dt => dt ≠ "" && !(DOC_TYPES.contains dt)
         | none => false)
    if firstInvalid then
      .error (.valueError "Invalid document type")
    else
      match buildRows chunks with
      | .error e => .error e
      | .ok newRows =>
          .ok (⟨st.rows ++ newRows⟩, chunks.map (fun c => c.chunk_id))

/-- Python truthiness of an optional string: present and non-empty. -/
def pyTruthy : Option String → Bool
  | none => false
  | some s => s ≠ ""

/-- The filter-expression construction of `MilvusVectorStore.search`
(`src/app/vector_store.py`, lines 241-249), applied to `filter_expr`,
`doc_type` and `source` and returning the expression handed to
`collection.search` (line 257).  When `filter_expr` is supplied it is passed
through untouched.  Otherwise, when a truthy `doc_type` or `source` is given:
an invalid `doc_type` raises `ValueError`; the `doc_type` equality is
rendered — as on line 246 — without a closing double quote, the `source`
equality with both quotes, and the pieces are joined with " && ". -/
def build_filter_expr (filter_expr doc_type source : Option String) :
    Except PyErr (Option String) :=
  if filter_expr = none ∧ (pyTruthy doc_type ∨ pyTruthy source) then
    let typeResult : Except PyErr (List String) :=
      match doc_type with
      | some dt =>
        if dt ≠ "" then
          if DOC_TYPES.contains dt then .ok ["doc_type == \"" ++ dt]
          else .error (.valueError "Invalid doc_type")
        else .ok []
      | none => .ok []
    match typeResult with
    | .error e => .error e
    | .ok typeFilters =>
      let sourceFilters := match source with
        | some s => if s ≠ "" then ["source == \"" ++ s ++ "\""] else []
        | none => []
      let filters := typeFilters ++ sourceFilters
      .ok (if filters = [] then none else some (String.intercalate " && " filters))
  else
    .ok filter_expr

/-! ## Orchestrator -/

/-- One entry of the `results` list of `IndexingPipeline.index_directory`
(`src/app/ingestion/pipeline.py`): either the dictionary returned by
`index_document` (lines 132-140, keys including `status` and `num_chunks`)
or the failure record of lines 191-196 (keys `file_path`, `doc_name`,
`error`, `status`; no `num_chunks` key, hence `none`). -/
structure FileResult where
  file_path : String
  doc_name : String
  status : String
  error : Option String
  num_chunks : Option Nat
  deriving Repr, DecidableEq

/-- `os.path.basename` of a slash-separated path. -/
def basename (p : String) : String :=
  ((p.splitOn "/").getLast?).getD p

/-- The summary dictionary returned by `index_directory`
(`src/app/ingestion/pipeline.py`, lines 217-223). -/
structure IndexSummary where
  total_documents : Nat
  successful : Nat
  failed : Nat
  total_chunks : Nat
  results : List FileResult
  deriving Repr, DecidableEq

/-- The per-file loop of `IndexingPipeline.index_directory`
(`src/app/ingestion/pipeline.py`, lines 177-196).  The whole per-file body —
`ingest_document` followed by `index_document` — is the `process` argument,
one independent unit of work per file; `try/except Exception` catches any
failure and appends the failure record with the error's text, then the loop
continues with the next file. -/
def index_directory_results (process : String → Except String FileResult)
    (all_files : List String) : List FileResult :=
  all_files.map (fun fp =>
    match process fp with
    | .ok r => r
    | .error e => ⟨fp, basename fp, "failed", some e, none⟩)

/-- `IndexingPipeline.index_directory` (`src/app/ingestion/pipeline.py`,
lines 142-223), from the discovered file list onward: run the per-file loop,
count the results with status "success" and "failed", total the successful
results' `num_chunks` (read with `.get("num_chunks", 0)`), and return the
summary with the full results list. -/
def index_directory (process : String → Except String FileResult)
    (all_files : List String) : IndexSummary :=
  let results := index_directory_results process all_files
  let successful := results.filter (fun r => r.status = "success")
  let failed := results.filter (fun r => r.status = "failed")
  ⟨all_files.length,
   successful.length,
   failed.length,
   (successful.map (fun r => r.num_chunks.getD 0)).sum,
   results⟩

/-! ## Theorems -/

/-- C3 counterexample: a two-chunk batch whose second chunk carries the
out-of-enumeration doc_type "blog" is not rejected — `insert_chunks` returns
successfully and writes both rows, including the invalid one, because the
validation of lines 171-174 inspects only the first chunk of the batch. -/
theorem claim3_counterexample :
    ("blog" ∉ DOC_TYPES) ∧
    insert_chunks ⟨[]⟩
      [⟨"c1", "d1", true, "a.md", some "rfc", "s1", 0, "x", [0]⟩,
       ⟨"c2", "d1", true, "b.md", some "blog", "s1", 1, "y", [0]⟩] =
      .ok (⟨[⟨"c1", "d1", "a.md", "rfc", "s1", "x", 0, [0]⟩,
             ⟨"c2", "d1", "b.md", "blog", "s1", "y", 1, [0]⟩]⟩,
           ["c1", "c2"]) := by
  constructor
  · decide
  · rfl

/-- C3 (amended): only the first chunk of the batch is validated, and only
when its doc_type is truthy.  (a) When the first chunk's metadata carries a
non-empty doc_type outside the closed set, the call is rejected with
`ValueError` before any row is written.  (b) An empty-string doc_type on the
first chunk — a value also outside the enumeration — fails the truthiness
test `if doc_type and ...` of line 173, so validation does not fire and the
batch is written. -/
theorem claim3_first_chunk_validation
    (st : MilvusState) (c0 : InsertChunk) (rest : List InsertChunk) :
    (c0.has_metadata = true → ∀ dt, c0.md_doc_type = some dt → dt ≠ "" →
       dt ∉ DOC_TYPES →
       insert_chunks st (c0 :: rest) = .error (.valueError "Invalid document type")) ∧
    (c0.md_doc_type = some "" →
       ∀ rows, buildRows (c0 :: rest) = .ok rows →
       insert_chunks st (c0 :: rest) =
         .ok (⟨st.rows ++ rows⟩, (c0 :: rest).map (fun c => c.chunk_id))) := by
  constructor
  · intro hmd dt hdt hne hinv
    have hcontains : DOC_TYPES.contains dt = false := by
      simpa using hinv
    simp [insert_chunks, hmd, hdt, hne, hcontains]
    exact fun h => absurd h hinv
  · intro hdt rows hrows
    simp [insert_chunks, hdt, hrows]

/-- C3 witness: the first-chunk validation fires on a concrete batch whose
first chunk has doc_type "blog"; and a concrete batch whose first chunk has
the out-of-enumeration doc_type "" is written, not rejected. -/
theorem claim3_witness :
    (⟨"c1", "d1", true, "a.md", some "blog", "s1", 0, "x", [0]⟩ : InsertChunk).has_metadata = true ∧
    ("blog" : String) ≠ "" ∧
    "blog" ∉ DOC_TYPES ∧
    insert_chunks ⟨[]⟩
      [⟨"c1", "d1", true, "a.md", some "blog", "s1", 0, "x", [0]⟩] =
      .error (.valueError "Invalid document type") ∧
    ("" : String) ∉ DOC_TYPES ∧
    insert_chunks ⟨[]⟩
      [⟨"c1", "d1", true, "a.md", some "", "s1", 0, "x", [0]⟩] =
      .ok (⟨[⟨"c1", "d1", "a.md", "", "s1", "x", 0, [0]⟩]⟩, ["c1"]) :=
  ⟨rfl, by decide, by decide,
   (claim3_first_chunk_validation ⟨[]⟩ _ []).1 rfl "blog" rfl (by decide) (by decide),
   by decide,
   (claim3_first_chunk_validation ⟨[]⟩ _ []).2 rfl
     [⟨"c1", "d1", "a.md", "", "s1", "x", 0, [0]⟩] rfl⟩

/-- C4: the filter expression built by `search` for a valid doc_type is
missing the closing double quote (line 246 of `src/app/vector_store.py`),
so it is not the well-formed quoted equality the specification requires: the
produced string contains an odd number of `"` characters, both alone and when
combined with a source filter.  The `filter_expr` pass-through, by contrast,
behaves as specified. -/
theorem claim4_doc_type_filter_unterminated_quote :
    build_filter_expr none (some "rfc") none = .ok (some "doc_type == \"rfc") ∧
    ("doc_type == \"rfc").toList.count '"' = 1 ∧
    build_filter_expr none (some "rfc") (some "docker") =
      .ok (some "doc_type == \"rfc && source == \"docker\"") ∧
    (∀ e dt src, build_filter_expr (some e) dt src = .ok (some e)) := by
  refine ⟨rfl, by decide, rfl, ?_⟩
  intro e dt src
  simp [build_filter_expr]

/-- C5 counterexample: constructing a chunker with `overlap = chunk_size`
(here both 10) succeeds, contradicting the claim that `overlap >= chunk_size`
is rejected at construction time. -/
theorem claim5_counterexample :
    ∃ c, DocumentChunker.init 10 10 none = .ok c :=
  ⟨⟨10, 10, defaultSeparators, none⟩, rfl⟩

/-- C5 (amended): construction rejects `overlap > chunk_size` (the
`ValueError` raised by the underlying splitter's constructor) and succeeds —
with no document processed and the instance state fully determined by the
configuration — whenever `overlap ≤ chunk_size`. -/
theorem claim5_overlap_validation (cs ov : Nat) (seps : Option (List String)) :
    (cs < ov → DocumentChunker.init cs ov seps =
       .error (.valueError "Got a larger chunk overlap than chunk size, should be smaller.")) ∧
    (ov ≤ cs → DocumentChunker.init cs ov seps =
       .ok ⟨cs, ov,
            (match seps with
             | none => defaultSeparators
             | some s => s), none⟩) := by
  constructor
  · intro h
    simp [DocumentChunker.init, h]
  · intro h
    simp [DocumentChunker.init, Nat.not_lt.mpr h]

/-- C5 witness: the rejection fires at `chunk_size = 10 < overlap = 11`, and
construction succeeds at `chunk_size = overlap = 10`. -/
theorem claim5_witness :
    (10 : Nat) < 11 ∧
    DocumentChunker.init 10 11 none =
      .error (.valueError "Got a larger chunk overlap than chunk size, should be smaller.") ∧
    (10 : Nat) ≤ 10 ∧
    DocumentChunker.init 10 10 none = .ok ⟨10, 10, defaultSeparators, none⟩ :=
  ⟨by decide, (claim5_overlap_validation 10 11 none).1 (by decide),
   by decide, (claim5_overlap_validation 10 10 none).2 (by decide)⟩

/-- A chunker built by `DocumentChunker.init` has no `doc_id` attribute. -/
theorem init_doc_id_attr_none (cs ov : Nat) (seps : Option (List String))
    (c : DocumentChunker) (h : DocumentChunker.init cs ov seps = .ok c) :
    c.doc_id_attr = none := by
  obtain ⟨ccs, cov, cseps, cattr⟩ := c
  unfold DocumentChunker.init at h
  by_cases hlt : cs < ov <;> simp [hlt] at h
  exact h.2.2.2.symm

/-- Shared helper: on any chunker without a `doc_id` attribute, `chunk`
raises `AttributeError` as soon as the splitter yields at least one piece and
every metadata key read by `merged_metadata` is present — the record
dictionary of lines 99-106 reads `self.doc_id`. -/
theorem chunk_raises_attribute_error (c : DocumentChunker)
    (hattr : c.doc_id_attr = none)
    (split_text : String → List String) (hexdigest : String → String)
    (text : String) (metadata : PyMetadata)
    (htext : text ≠ "") (hsplit : split_text text ≠ [])
    (dn dt src dp : String) (wc : Nat)
    (hdn : metadata.doc_name = some dn) (hdt : metadata.doc_type = some dt)
    (hsrc : metadata.source = some src) (hdp : metadata.doc_path = some dp)
    (hwc : metadata.word_count = some wc) :
    c.chunk split_text hexdigest text metadata =
      .error (.attributeError "DocumentChunker object has no attribute doc_id") := by
  obtain ⟨a, l, hal⟩ : ∃ a l, split_text text = a :: l := by
    cases h : split_text text with
    | nil => exact absurd h hsplit
    | cons a l => exact ⟨a, l, rfl⟩
  unfold DocumentChunker.chunk
  rw [if_neg htext, hal]
  unfold chunkLoop
  simp [mergedMetadata, hdn, hdt, hsrc, hdp, hwc, hattr]
  rfl

/-- C1: the claim fails on the code.  For every chunker produced by the
constructor, on every non-empty text that the splitter divides into at least
one piece, and every metadata dictionary carrying a `doc_id` (and the other
keys the chunker copies), `chunk` does not return records whose `doc_id`
comes from the metadata — it raises `AttributeError`, because line 101 reads
the never-assigned instance attribute `self.doc_id` instead of the local
`doc_id` extracted from the metadata on line 78. -/
theorem claim1_chunk_doc_id_attribute_error
    (cs ov : Nat) (seps : Option (List String)) (c : DocumentChunker)
    (hinit : DocumentChunker.init cs ov seps = .ok c)
    (split_text : String → List String) (hexdigest : String → String)
    (text : String) (metadata : PyMetadata)
    (htext : text ≠ "") (hsplit : split_text text ≠ [])
    (did dn dt src dp : String) (wc : Nat)
    (_hdid : metadata.doc_id = some did)
    (hdn : metadata.doc_name = some dn) (hdt : metadata.doc_type = some dt)
    (hsrc : metadata.source = some src) (hdp : metadata.doc_path = some dp)
    (hwc : metadata.word_count = some wc) :
    c.chunk split_text hexdigest text metadata =
      .error (.attributeError "DocumentChunker object has no attribute doc_id") :=
  chunk_raises_attribute_error c (init_doc_id_attr_none cs ov seps c hinit)
    split_text hexdigest text metadata htext hsplit dn dt src dp wc
    hdn hdt hsrc hdp hwc

/-- C1 witness: the failure on a concrete run — default configuration, the
two-word text "hello world" split into a single piece, full metadata with
doc_id "doc-1". -/
theorem claim1_witness :
    DocumentChunker.init 1000 200 none =
      .ok ⟨1000, 200, defaultSeparators, none⟩ ∧
    (⟨1000, 200, defaultSeparators, none⟩ : DocumentChunker).chunk
        (fun _ => ["hello world"]) (fun _ => "0123456789abcdef")
        "hello world"
        ⟨some "doc-1", some "a.md", some "documentation", some "a",
         some "/data/documentation/a.md", some 2, some 10, some 1⟩ =
      .error (.attributeError "DocumentChunker object has no attribute doc_id") :=
  ⟨rfl,
   claim1_chunk_doc_id_attribute_error 1000 200 none _ rfl
     (fun _ => ["hello world"]) (fun _ => "0123456789abcdef") "hello world"
     ⟨some "doc-1", some "a.md", some "documentation", some "a",
      some "/data/documentation/a.md", some 2, some 10, some 1⟩
     (by decide) (by simp)
     "doc-1" "a.md" "documentation" "a" "/data/documentation/a.md" 2
     rfl rfl rfl rfl rfl rfl⟩

/-- C7: the claim fails on the code.  For every non-empty text that the
splitter divides into at least one piece (with complete metadata), `chunk`
returns no list at all — a fortiori no non-empty list whose records carry
`total_chunks` and `chunk_index` — since it raises `AttributeError` on the
first record (the same root cause as C1). -/
theorem claim7_no_chunk_sequence_produced
    (cs ov : Nat) (seps : Option (List String)) (c : DocumentChunker)
    (hinit : DocumentChunker.init cs ov seps = .ok c)
    (split_text : String → List String) (hexdigest : String → String)
    (text : String) (metadata : PyMetadata)
    (htext : text ≠ "") (hsplit : split_text text ≠ [])
    (dn dt src dp : String) (wc : Nat)
    (hdn : metadata.doc_name = some dn) (hdt : metadata.doc_type = some dt)
    (hsrc : metadata.source = some src) (hdp : metadata.doc_path = some dp)
    (hwc : metadata.word_count = some wc) :
    ∀ records : List ChunkRecord,
      c.chunk split_text hexdigest text metadata ≠ .ok records := by
  intro records h
  rw [chunk_raises_attribute_error c (init_doc_id_attr_none cs ov seps c hinit)
        split_text hexdigest text metadata htext hsplit dn dt src dp wc
        hdn hdt hsrc hdp hwc] at h
  exact absurd h (by simp)

/-- C7 witness: on the concrete run of the C1 witness, the call does not
return the empty record list (it raises instead). -/
theorem claim7_witness :
    (⟨1000, 200, defaultSeparators, none⟩ : DocumentChunker).chunk
        (fun _ => ["hello world"]) (fun _ => "0123456789abcdef")
        "hello world"
        ⟨some "doc-1", some "a.md", some "documentation", some "a",
         some "/data/documentation/a.md", some 2, some 10, some 1⟩ ≠
      .ok [] :=
  claim7_no_chunk_sequence_produced 1000 200 none _ rfl
    (fun _ => ["hello world"]) (fun _ => "0123456789abcdef") "hello world"
    ⟨some "doc-1", some "a.md", some "documentation", some "a",
     some "/data/documentation/a.md", some 2, some 10, some 1⟩
    (by decide) (by simp)
    "a.md" "documentation" "a" "/data/documentation/a.md" 2
    rfl rfl rfl rfl rfl []

/-- C2: the claim fails on the code, at two independent points of the
ingestion-then-chunking pipeline.  (1) `ingest_document` raises `TypeError`
for every loadable file, because it passes `doc_type`/`source` keyword
arguments that `DocumentProcessor.__init__` does not accept.  (2) Even
bypassing that, the metadata dictionary built by `extract_metadata` carries
no `doc_type` and no `source` key, so `DocumentChunker.chunk` raises
`KeyError` on `metadata["doc_type"]` for any text the splitter divides:
no chunk with the five propagated fields is ever produced. -/
theorem claim2_metadata_propagation_broken :
    (∀ (load : String → Except PyErr String) (file_path raw : String),
       load file_path = .ok raw →
       ingest_document load file_path =
         .error (.typeError "DocumentProcessor.init got an unexpected keyword argument doc_type")) ∧
    (∀ text doc_id dn dp,
       (extract_metadata text doc_id (some dn) (some dp)).doc_type = none ∧
       (extract_metadata text doc_id (some dn) (some dp)).source = none) ∧
    (∀ (c : DocumentChunker) (split_text : String → List String)
       (hexdigest : String → String) (text doc_id dn dp : String),
       text ≠ "" → split_text text ≠ [] →
       c.chunk split_text hexdigest text
           (extract_metadata text doc_id (some dn) (some dp)) =
         .error (.keyError "doc_type")) := by
  refine ⟨?_, ?_, ?_⟩
  · intro load file_path raw hload
    unfold ingest_document
    rw [hload]
    rfl
  · intro text doc_id dn dp
    unfold extract_metadata
    by_cases h : text = "" <;> simp [h]
  · intro c split_text hexdigest text doc_id dn dp htext hsplit
    obtain ⟨a, l, hal⟩ : ∃ a l, split_text text = a :: l := by
      cases h : split_text text with
      | nil => exact absurd h hsplit
      | cons a t => exact ⟨a, t, rfl⟩
    have hdn : (extract_metadata text doc_id (some dn) (some dp)).doc_name = some dn := by
      unfold extract_metadata
      by_cases h : text = "" <;> simp [h]
    have hdt : (extract_metadata text doc_id (some dn) (some dp)).doc_type = none := by
      unfold extract_metadata
      by_cases h : text = "" <;> simp [h]
    unfold DocumentChunker.chunk
    rw [if_neg htext, hal]
    unfold chunkLoop
    simp [mergedMetadata, hdn, hdt]
    rfl

/-- C2 witness: on the concrete text "hello world" with a splitter that
yields one piece, chunking the metadata extracted for doc "doc-1" raises
`KeyError` on the missing `doc_type` key; and `ingest_document` raises
`TypeError` on a loader that returns that text. -/
theorem claim2_witness :
    ingest_document (fun _ => .ok "hello world") "/data/rfcs/a.md" =
      .error (.typeError "DocumentProcessor.init got an unexpected keyword argument doc_type") ∧
    (⟨1000, 200, defaultSeparators, none⟩ : DocumentChunker).chunk
        (fun _ => ["hello world"]) (fun _ => "0123456789abcdef")
        "hello world" (extract_metadata "hello world" "doc-1" (some "a.md") (some "/data/rfcs/a.md")) =
      .error (.keyError "doc_type") :=
  ⟨claim2_metadata_propagation_broken.1 (fun _ => .ok "hello world")
     "/data/rfcs/a.md" "hello world" rfl,
   claim2_metadata_propagation_broken.2.2 _ (fun _ => ["hello world"])
     (fun _ => "0123456789abcdef") "hello world" "doc-1" "a.md"
     "/data/rfcs/a.md" (by decide) (by simp)⟩

/-- C6: determinism of segmentation.  Two chunkers constructed from the same
configuration (chunk size, overlap, separator list) are equal, hence running
`chunk` on the same text and metadata — with the splitter and hash functions
fixed by that configuration — produces the identical outcome; and every
chunk id is the pure function of the parent doc id, the 0-based position and
the content fingerprint given by the first 8 characters of the content's hex
digest, so re-segmenting identical content at the same position reproduces
the identical id. -/
theorem claim6_chunking_deterministic
    (cs ov : Nat) (seps : Option (List String)) (c c' : DocumentChunker)
    (h : DocumentChunker.init cs ov seps = .ok c)
    (h' : DocumentChunker.init cs ov seps = .ok c') :
    (∀ (split_text : String → List String) (hexdigest : String → String)
       (text : String) (metadata : PyMetadata),
       c.chunk split_text hexdigest text metadata =
         c'.chunk split_text hexdigest text metadata) ∧
    (∀ (hexdigest : String → String) (doc_id : String) (idx : Nat)
       (content : String),
       generate_chunk_id hexdigest doc_id idx content =
         doc_id ++ "_chunk_" ++ toString idx ++ "_" ++ (hexdigest content).take 8) := by
  have hcc : c = c' := by
    rw [h] at h'
    exact (Except.ok.injEq _ _).mp h'
  subst hcc
  exact ⟨fun _ _ _ _ => rfl, fun _ _ _ _ => rfl⟩

/-- C6 witness: both conjuncts at a concrete configuration, text, metadata
and hash function. -/
theorem claim6_witness :
    ((⟨1000, 200, defaultSeparators, none⟩ : DocumentChunker).chunk
        (fun _ => ["hi"]) (fun _ => "aabbccddeeff0011") "hi"
        ⟨some "d", some "n", some "t", some "s", some "p", some 1, some 2, some 1⟩ =
      (⟨1000, 200, defaultSeparators, none⟩ : DocumentChunker).chunk
        (fun _ => ["hi"]) (fun _ => "aabbccddeeff0011") "hi"
        ⟨some "d", some "n", some "t", some "s", some "p", some 1, some 2, some 1⟩) ∧
    generate_chunk_id (fun _ => "aabbccddeeff0011") "d" 0 "hi" =
      "d" ++ "_chunk_" ++ toString 0 ++ "_" ++
        ((fun (_ : String) => "aabbccddeeff0011") "hi").take 8 :=
  ⟨(claim6_chunking_deterministic 1000 200 none _ _ rfl rfl).1
     (fun _ => ["hi"]) (fun _ => "aabbccddeeff0011") "hi"
     ⟨some "d", some "n", some "t", some "s", some "p", some 1, some 2, some 1⟩,
   (claim6_chunking_deterministic 1000 200 none _ _ rfl rfl).2
     (fun _ => "aabbccddeeff0011") "d" 0 "hi"⟩

/-- Concatenating the batches gives back the original text list, whenever the
fuel covers the list length. -/
theorem splitIntoBatchesAux_flatten (bs : Nat) :
    ∀ (fuel : Nat) (l : List String), l.length ≤ fuel →
      (splitIntoBatchesAux bs fuel l).flatten = l := by
  intro fuel
  induction fuel with
  | zero =>
    intro l hl
    cases l with
    | nil => rfl
    | cons x xs => simp at hl
  | succ n ih =>
    intro l hl
    cases l with
    | nil => rfl
    | cons x xs =>
      have hlen : (List.drop (bs - 1) xs).length ≤ n := by
        simp only [List.length_drop]
        simp only [List.length_cons] at hl
        omega
      simp only [splitIntoBatchesAux, List.flatten_cons, ih _ hlen,
        List.cons_append, List.take_append_drop]

/-- Concatenating the batches gives back the original text list. -/
theorem splitIntoBatches_flatten (bs : Nat) (l : List String) :
    (splitIntoBatches bs l).flatten = l :=
  splitIntoBatchesAux_flatten bs l.length l (Nat.le_refl _)

/-- C8: the claim fails on the code — only the single-text path validates.
Amended: `generate_embedding` rejects an empty or whitespace-only text with
`ValueError` before any network call (no call is issued); the batched path,
by contrast, never performs that validation: for any positive batch size it
returns an embedding for every input text, and the network calls it issues
carry exactly the given texts — blank ones included. -/
theorem claim8_blank_validation_single_path_only
    (api : String → List Int) (text : String)
    (hblank : isBlankText text = true) :
    generate_embedding api text = (.error (.valueError "Text cannot be empty"), []) ∧
    (∀ (batch_size : Nat) (texts : List String), 0 < batch_size →
       (generate_embeddings_batch api batch_size texts).1 = .ok (texts.map api) ∧
       ((generate_embeddings_batch api batch_size texts).2.map
           EmbedCall.inputs).flatten = texts) := by
  constructor
  · unfold generate_embedding
    rw [if_pos hblank]
  · intro batch_size texts hbs
    by_cases hempty : texts = []
    · subst hempty
      exact ⟨rfl, rfl⟩
    · have hbs0 : batch_size ≠ 0 := Nat.pos_iff_ne_zero.mp hbs
      constructor
      · unfold generate_embeddings_batch
        rw [if_neg hempty, if_neg hbs0]
        simp only [← List.map_flatten, splitIntoBatches_flatten]
      · unfold generate_embeddings_batch
        rw [if_neg hempty, if_neg hbs0]
        have hmm : ∀ L : List (List String),
            (L.map (fun b => (⟨b⟩ : EmbedCall))).map EmbedCall.inputs = L := by
          intro L
          induction L with
          | nil => rfl
          | cons b L ih => simp only [List.map_cons, ih]
        rw [hmm, splitIntoBatches_flatten]

/-- C8 counterexample: the batched path accepts the empty text — the call
succeeds and one network request carrying the empty text is issued, with no
client-side rejection. -/
theorem claim8_counterexample :
    isBlankText "" = true ∧
    generate_embeddings_batch (fun _ => [0]) 100 [""] =
      (.ok [[0]], [⟨[""]⟩]) := by
  exact ⟨rfl, rfl⟩

/-- C8 witness: the single-text rejection at the whitespace-only text " ",
and the batched path returning an embedding for the blank text. -/
theorem claim8_witness :
    isBlankText " " = true ∧
    generate_embedding (fun _ => [0]) " " =
      (.error (.valueError "Text cannot be empty"), []) ∧
    (generate_embeddings_batch (fun _ => [0]) 100 [""]).1 = .ok [[0]] := by
  refine ⟨rfl, (claim8_blank_validation_single_path_only (fun _ => [0]) " " rfl).1, ?_⟩
  have h := ((claim8_blank_validation_single_path_only (fun _ => [0]) " " rfl).2
    100 [""] (by decide)).1
  simpa using h

/-- C9: per-file failure isolation in `index_directory`.  The results list
has exactly one entry per discovered file (no global abort, no document
dropped), and for every file whose processing raises, the summary's results
contain the record with status "failed", the file's basename and the error
text. -/
theorem claim9_failure_isolation
    (process : String → Except String FileResult) (all_files : List String) :
    (index_directory process all_files).results.length = all_files.length ∧
    (index_directory process all_files).total_documents = all_files.length ∧
    (∀ fp e, fp ∈ all_files → process fp = .error e →
       (⟨fp, basename fp, "failed", some e, none⟩ : FileResult) ∈
         (index_directory process all_files).results) := by
  refine ⟨?_, rfl, ?_⟩
  · simp [index_directory, index_directory_results]
  · intro fp e hmem hfail
    have : (⟨fp, basename fp, "failed", some e, none⟩ : FileResult) =
        (match process fp with
         | .ok r => r
         | .error e => ⟨fp, basename fp, "failed", some e, none⟩) := by
      rw [hfail]
    rw [this]
    exact List.mem_map_of_mem _ hmem

/-- C9 witness: a directory of two files whose first file fails with error
"boom at load" — the summary still lists both files and contains the failure
record with the error string. -/
theorem claim9_witness :
    (index_directory
        (fun fp => if fp = "data/rfcs/a.md" then .error "boom at load"
                   else .ok ⟨fp, "b.md", "success", none, some 3⟩)
        ["data/rfcs/a.md", "data/rfcs/b.md"]).results.length = 2 ∧
    (⟨"data/rfcs/a.md", basename "data/rfcs/a.md", "failed",
      some "boom at load", none⟩ : FileResult) ∈
      (index_directory
        (fun fp => if fp = "data/rfcs/a.md" then .error "boom at load"
                   else .ok ⟨fp, "b.md", "success", none, some 3⟩)
        ["data/rfcs/a.md", "data/rfcs/b.md"]).results :=
  ⟨(claim9_failure_isolation _ _).1,
   (claim9_failure_isolation _ _).2.2 "data/rfcs/a.md" "boom at load"
     (by decide) rfl⟩

/-- The value of a successful `FOLDER_TYPE_MAPPING` lookup is among the
mapping's values. -/
theorem lookup_value_mem (k v : String) (h : lookupMapping k = some v) :
    v ∈ FOLDER_TYPE_MAPPING.map Prod.snd := by
  unfold lookupMapping at h
  obtain ⟨l₁, l₂, heq, -⟩ := List.lookup_eq_some_iff.mp h
  rw [heq]
  simp

/-- All values of `FOLDER_TYPE_MAPPING` lie in the closed enumeration. -/
theorem mapping_values_in_enum :
    ∀ v ∈ FOLDER_TYPE_MAPPING.map Prod.snd, v ∈ DocTypeEnum := by decide

/-- C10: for every file path, the `doc_type` returned by
`DocumentLoader.get_metadata` belongs to the closed enumeration
{documentation, rfc, research, manual}; and when no lowercased path
component is a key of `FOLDER_TYPE_MAPPING`, the loader silently defaults it
to "documentation" rather than failing. -/
theorem claim10_doc_type_closed_enumeration
    (rfc_regex : String → Option String) (path_parts : List String) :
    (get_metadata rfc_regex path_parts).doc_type ∈ DocTypeEnum ∧
    ((∀ part ∈ path_parts, lookupMapping (pyLower part) = none) →
       (get_metadata rfc_regex path_parts).doc_type = "documentation") := by
  have hdt : (get_metadata rfc_regex path_parts).doc_type =
      extract_doc_type path_parts := rfl
  have hmem : ∀ o : Option String,
      (∀ t, o = some t → t ∈ DocTypeEnum) →
      (match o with | some t => t | none => "documentation") ∈ DocTypeEnum := by
    intro o h
    cases o with
    | none => decide
    | some t => exact h t rfl
  constructor
  · rw [hdt]
    unfold extract_doc_type
    refine hmem _ ?_
    intro t hfs
    obtain ⟨l₁, a, l₂, -, ha, -⟩ := List.findSome?_eq_some_iff.mp hfs
    exact mapping_values_in_enum t (lookup_value_mem a t ha)
  · intro hall
    rw [hdt]
    unfold extract_doc_type
    have hnone : (path_parts.map pyLower).findSome? lookupMapping = none := by
      rw [List.findSome?_eq_none_iff]
      intro q hq
      obtain ⟨p, hp, rfl⟩ := List.mem_map.mp hq
      exact hall p hp
    rw [hnone]

/-- C10 witness: a path with no type folder among its components classifies
as "documentation", a member of the enumeration. -/
theorem claim10_witness :
    (get_metadata (fun _ => none) ["data", "misc", "notes.txt"]).doc_type =
      "documentation" ∧
    (get_metadata (fun _ => none) ["data", "misc", "notes.txt"]).doc_type ∈
      DocTypeEnum :=
  ⟨(claim10_doc_type_closed_enumeration (fun _ => none)
      ["data", "misc", "notes.txt"]).2 (by decide),
   (claim10_doc_type_closed_enumeration (fun _ => none)
      ["data", "misc", "notes.txt"]).1⟩

end Documind
